import Mathlib

/-!
Shallow embedding of the slide-generator front-end's core:
the OAuth token lifecycle (`src/client/src/app/api/auth/[...nextauth]/route.ts`)
and the chat submit flow (`src/client/src/app/layout/page.tsx`).

Times are milliseconds since epoch, modelled as `Nat`.
JS values that may be `undefined` are modelled as `Option`; JS truthiness of a
possibly-absent string (`undefined`, `null` and `""` are falsy) is `truthy`.
Network effects are modelled by passing the environment's response as an
explicit outcome argument and returning the list of requests sent.
-/

/-- The session JWT maintained by the `jwt` callback in `route.ts`.
`userId` models the nested `user.id` (set from `profile.sub`);
`error` is the optional `"RefreshAccessTokenError"` tag. -/
structure SessionToken where
  accessToken : Option String
  accessTokenExpires : Nat
  refreshToken : Option String
  userId : Option String
  error : Option String
deriving DecidableEq, Repr

/-- Outcome of one refresh call to the identity-provider token endpoint:
`ok` carries the parsed JSON fields `access_token`, `expires_in` (seconds) and
the optional rotated `refresh_token`; `fail` covers both a non-ok response
(the code `throw`s the body) and a transport/parse error, since both land in
the same `catch` block of `refreshAccessToken`. -/
inductive RefreshOutcome where
  | ok (access_token : String) (expires_in : Nat) (refresh_token : Option String)
  | fail
deriving DecidableEq, Repr

/-- `refreshAccessToken` from `route.ts:4-33`.  On success it returns
`{...token, accessToken, accessTokenExpires: Date.now() + expires_in*1000,
refreshToken: refreshed.refresh_token ?? token.refreshToken}`; the spread
keeps every other field (including a previously set `error`).  On any
failure the `catch` returns `{...token, error: "RefreshAccessTokenError"}`,
so all credential fields are preserved. -/
def refreshAccessToken (token : SessionToken) (now : Nat)
    (outcome : RefreshOutcome) : SessionToken :=
  match outcome with
  | RefreshOutcome.ok newAccess expiresIn newRefresh =>
      { token with
        accessToken := some newAccess,
        accessTokenExpires := now + expiresIn * 1000,
        refreshToken :=
          match newRefresh with
          | some r => some r
          | none => token.refreshToken }
  | RefreshOutcome.fail =>
      { token with error := some "RefreshAccessTokenError" }

/-- The fields of the NextAuth `account` object read by the `jwt` callback.
`expires_in` is the provider-declared access-token lifetime in seconds. -/
structure Account where
  access_token : Option String
  expires_in : Option Nat
  refresh_token : Option String
deriving DecidableEq, Repr

/-- Expiry computed on initial sign-in, `route.ts:64-68`:
`Date.now() + (account.expires_in ? account.expires_in * 1000 : 3600 * 1000)`.
JS truthiness makes both an absent and a zero `expires_in` take the
3600-second default. -/
def initialExpiry (now : Nat) (e : Option Nat) : Nat :=
  now +
    (match e with
     | some n => if n = 0 then 3600 * 1000 else n * 1000
     | none => 3600 * 1000)

/-- The `jwt` callback from `route.ts:59-81`.  `signin` is `some (account,
profile.sub)` exactly when the callback receives `account && profile`
(initial sign-in).  The second component of the result counts the network
(refresh) calls the invocation performs.  Three branches, as in the source:
initial sign-in builds a fresh token; while `now < accessTokenExpires` the
stored token is returned unchanged with no network call; otherwise exactly
one refresh attempt is made. -/
def jwt (token : SessionToken) (signin : Option (Account × String))
    (now : Nat) (outcome : RefreshOutcome) : SessionToken × Nat :=
  match signin with
  | some (account, sub) =>
      ({ accessToken := account.access_token,
         accessTokenExpires := initialExpiry now account.expires_in,
         refreshToken := account.refresh_token,
         userId := some sub,
         error := none }, 0)
  | none =>
      if now < token.accessTokenExpires then (token, 0)
      else (refreshAccessToken token now outcome, 1)

/-- One ordinary read of the session token (the `jwt` callback invoked with no
new `account`/`profile`), at some instant and against some refresh
environment. -/
def ordinaryRead (token : SessionToken) (step : Nat × RefreshOutcome) :
    SessionToken :=
  (jwt token none step.1 step.2).1

/-- Message sender, `page.tsx:11`: `"user" | "ai"`; `ai` is the spec's
"system-response" sender. -/
inductive Sender where
  | user
  | ai
deriving DecidableEq, Repr

/-- A conversation-log entry, `page.tsx:10-13`. -/
structure Message where
  sender : Sender
  text : String
deriving DecidableEq, Repr

/-- The component state `handleSubmit` touches: the textarea ref's value
(`input.current`, `none` when the ref is not attached), the in-flight flag
`check`, and the conversation log `messages`. -/
structure AppState where
  input : Option String
  check : Bool
  messages : List Message
deriving DecidableEq, Repr

/-- The JSON body POSTed to `/generate-presentation`, `page.tsx:55-58`. -/
structure GenRequest where
  topic : String
  access_token : String
deriving DecidableEq, Repr

/-- How the backend call settles: `ok success url` is a parsed JSON response
(`data.success`, `data.url`, the latter absent or a string); `exn` is a
throw from `fetch` or `res.json()` (transport error, timeout, malformed
body), which lands in the `catch` block. -/
inductive GenOutcome where
  | ok (success : Bool) (url : Option String)
  | exn
deriving DecidableEq, Repr

/-- JS truthiness of a possibly-absent string: `undefined`/`null` and `""`
are falsy. -/
def truthy : Option String → Bool
  | none => false
  | some s => !(s == "")

/-- The guard test `input.current.value.trim() === ""`, `page.tsx:38`:
a string trims to empty exactly when all of its characters are
whitespace. -/
def trimEmpty (s : String) : Bool :=
  s.data.all Char.isWhitespace

/-- The fixed prefix phrase of a success message, `page.tsx:68` (also the
`startsWith` discriminator at `page.tsx:121` plus the link label). -/
def successPre : String :=
  "Here’s your Google Slides presentation 👉 [View Presentation]"

/-- Text of the `ai` message appended on success, `page.tsx:68`: the fixed
prefix phrase followed by the url in parenthesized form. -/
def successText (url : String) : String :=
  successPre ++ "(" ++ url ++ ")"

/-- The fixed soft-failure apology, `page.tsx:74`. -/
def apologyText : String :=
  "Sorry, I couldn’t generate your slides."

/-- The fixed hard-failure message, `page.tsx:81`. -/
def tryAgainText : String :=
  "Something went wrong. Try again!"

/-- `handleSubmit` from `page.tsx:35-86`.  Returns the state after the call
settles together with the list of requests sent.  Guard: missing ref, value
trimming to empty, or falsy `session?.accessToken` returns early (no request,
no message).  Otherwise: the input is cleared, the user message appended,
`check` set, one request sent; the response appends the success message when
`data.success && data.url` is truthy, the apology otherwise, and a throw
appends the try-again message; `finally` clears `check` on every path. -/
def handleSubmit (st : AppState) (token : Option String)
    (outcome : GenOutcome) : AppState × List GenRequest :=
  match st.input with
  | none => (st, [])
  | some v =>
      if trimEmpty v then (st, [])
      else if !(truthy token) then (st, [])
      else
        let userMessage := v
        let st1 : AppState :=
          { input := some "",
            check := true,
            messages := st.messages ++ [⟨Sender.user, userMessage⟩] }
        let st2 : AppState :=
          match outcome with
          | GenOutcome.ok s u =>
              if s && truthy u then
                { st1 with
                  messages :=
                    st1.messages ++ [⟨Sender.ai, successText (u.getD "")⟩] }
              else
                { st1 with
                  messages := st1.messages ++ [⟨Sender.ai, apologyText⟩] }
          | GenOutcome.exn =>
              { st1 with
                messages := st1.messages ++ [⟨Sender.ai, tryAgainText⟩] }
        ({ st2 with check := false }, [⟨userMessage, token.getD ""⟩])

/-- A click of the Send button, `page.tsx:154-156`: the button has
`onClick := handleSubmit` and `disabled := check`, and a disabled button does
not fire its click handler, so while `check` is true a click never reaches
`handleSubmit`. -/
def sendButtonClick (st : AppState) (token : Option String)
    (outcome : GenOutcome) : AppState × List GenRequest :=
  if st.check then (st, []) else handleSubmit st token outcome

/-- The lazy group of the link-extraction regex `/\((.*?)\)/` applied from a
position just after an opening parenthesis, `page.tsx:123`: the group is the
run of characters up to the first closing parenthesis, and fails when a
newline (which `.` does not match) or the end of the string comes first. -/
def grabGroup : List Char → Option (List Char)
  | [] => none
  | c :: cs =>
      if c = ')' then some []
      else if c = '\n' then none
      else (grabGroup cs).map (fun g => c :: g)

/-- `text.match(/\((.*?)\)/)?.[1]`, `page.tsx:123`: scan left to right for an
opening parenthesis at which the lazy group succeeds, and return that
group. -/
def extractParen : List Char → Option (List Char)
  | [] => none
  | c :: cs =>
      if c = '(' then
        match grabGroup cs with
        | some g => some g
        | none => extractParen cs
      else extractParen cs

/-- String version of the parenthesized-link extraction. -/
def extractParenS (s : String) : Option String :=
  (extractParen s.data).map (fun l => ⟨l⟩)

/-- C2: a failed refresh sets the fixed error tag and leaves both credentials
exactly as they were before the attempt. -/
theorem C2_refresh_failure_preserves_credentials (token : SessionToken)
    (now : Nat) :
    (refreshAccessToken token now RefreshOutcome.fail).error =
        some "RefreshAccessTokenError" ∧
      (refreshAccessToken token now RefreshOutcome.fail).accessToken =
        token.accessToken ∧
      (refreshAccessToken token now RefreshOutcome.fail).refreshToken =
        token.refreshToken :=
  ⟨rfl, rfl, rfl⟩

/-- C4: an ordinary read while the token is still valid returns the stored
token unchanged (every field identical) and performs zero network calls. -/
theorem C4_valid_read_is_noop (token : SessionToken) (now : Nat)
    (outcome : RefreshOutcome) (h : now < token.accessTokenExpires) :
    jwt token none now outcome = (token, 0) := by
  simp [jwt, h]

theorem C4_valid_read_is_noop_witness :
    (1000 : Nat) < 2000 ∧
      jwt ⟨some "at", 2000, some "rt", some "u", none⟩ none 1000
          RefreshOutcome.fail =
        (⟨some "at", 2000, some "rt", some "u", none⟩, 0) :=
  ⟨by decide,
    C4_valid_read_is_noop ⟨some "at", 2000, some "rt", some "u", none⟩ 1000
      RefreshOutcome.fail (by decide)⟩

theorem ordinaryRead_error_preserved (token : SessionToken)
    (h : token.error = some "RefreshAccessTokenError")
    (step : Nat × RefreshOutcome) :
    (ordinaryRead token step).error = some "RefreshAccessTokenError" := by
  rcases step with ⟨now, outcome⟩
  by_cases hlt : now < token.accessTokenExpires
  · simp [ordinaryRead, jwt, hlt, h]
  · cases outcome <;> simp [ordinaryRead, jwt, hlt, refreshAccessToken, h]

/-- C3: once the error tag is set, no sequence of ordinary reads of the
session token clears it — even a later successful refresh keeps the tag,
because the success branch spreads the old token without touching `error`.
Only a fresh sign-in handshake (the `account && profile` branch) yields a
token with no error, as the second conjunct states. -/
theorem C3_refresh_failed_is_sticky (token : SessionToken)
    (h : token.error = some "RefreshAccessTokenError")
    (reads : List (Nat × RefreshOutcome)) :
    (reads.foldl ordinaryRead token).error =
        some "RefreshAccessTokenError" ∧
      ∀ (account : Account) (sub : String) (now : Nat)
        (outcome : RefreshOutcome),
        (jwt token (some (account, sub)) now outcome).1.error = none := by
  constructor
  · induction reads generalizing token with
    | nil => exact h
    | cons step rest ih =>
        exact ih _ (ordinaryRead_error_preserved token h step)
  · intro account sub now outcome
    simp [jwt]

theorem C3_refresh_failed_is_sticky_witness :
    (SessionToken.mk (some "at") 0 (some "rt") (some "u")
          (some "RefreshAccessTokenError")).error =
        some "RefreshAccessTokenError" ∧
      (([(5, RefreshOutcome.ok "new" 10 none),
          (99999, RefreshOutcome.fail)].foldl ordinaryRead
          ⟨some "at", 0, some "rt", some "u",
            some "RefreshAccessTokenError"⟩).error =
        some "RefreshAccessTokenError" ∧
      ∀ (account : Account) (sub : String) (now : Nat)
        (outcome : RefreshOutcome),
        (jwt ⟨some "at", 0, some "rt", some "u",
            some "RefreshAccessTokenError"⟩
            (some (account, sub)) now outcome).1.error = none) :=
  ⟨rfl,
    C3_refresh_failed_is_sticky
      ⟨some "at", 0, some "rt", some "u", some "RefreshAccessTokenError"⟩
      rfl
      [(5, RefreshOutcome.ok "new" 10 none), (99999, RefreshOutcome.fail)]⟩

/-- C7 as stated is false: the initial handshake computes expiry with
`account.expires_in ? expires_in * 1000 : 3600 * 1000`, and `0` is falsy in
JS, so a provider-declared lifetime of `0` seconds yields `now + 3600 * 1000`
rather than `now + 0` (the claim's "handshake time plus the declared
lifetime").  Concrete input: handshake at `now = 5000` with
`expires_in = 0`. -/
theorem C7_counterexample :
    (jwt ⟨none, 0, none, none, none⟩
          (some (⟨some "at", some 0, some "rt"⟩, "sub")) 5000
          RefreshOutcome.fail).1.accessTokenExpires ≠ 5000 + 0 * 1000 := by
  decide

/-- C7 amended: on a successful initial handshake, `accessTokenExpires`
equals handshake time plus the declared lifetime (in ms) when the provider
declares a nonzero lifetime, and handshake time plus 3600 seconds when the
lifetime is omitted or declared as zero. -/
theorem C7_initial_expiry (token : SessionToken) (account : Account)
    (sub : String) (now : Nat) (outcome : RefreshOutcome) :
    ((account.expires_in = none ∨ account.expires_in = some 0) →
        (jwt token (some (account, sub)) now
            outcome).1.accessTokenExpires = now + 3600 * 1000) ∧
      ∀ e : Nat, account.expires_in = some e → e ≠ 0 →
        (jwt token (some (account, sub)) now
            outcome).1.accessTokenExpires = now + e * 1000 := by
  constructor
  · rintro (h | h) <;> simp [jwt, initialExpiry, h]
  · intro e he hne
    simp [jwt, initialExpiry, he, hne]

theorem C7_initial_expiry_witness :
    ((jwt ⟨none, 0, none, none, none⟩
          (some (⟨some "at", none, some "rt"⟩, "sub")) 1000
          RefreshOutcome.fail).1.accessTokenExpires = 1000 + 3600 * 1000) ∧
      (jwt ⟨none, 0, none, none, none⟩
          (some (⟨some "at", some 7, some "rt"⟩, "sub")) 1000
          RefreshOutcome.fail).1.accessTokenExpires = 1000 + 7 * 1000 :=
  ⟨(C7_initial_expiry ⟨none, 0, none, none, none⟩ ⟨some "at", none, some "rt"⟩
      "sub" 1000 RefreshOutcome.fail).1 (Or.inl rfl),
    (C7_initial_expiry ⟨none, 0, none, none, none⟩
      ⟨some "at", some 7, some "rt"⟩ "sub" 1000 RefreshOutcome.fail).2 7 rfl
      (by decide)⟩

theorem ordinaryRead_expires_mono (token : SessionToken)
    (step : Nat × RefreshOutcome) :
    token.accessTokenExpires ≤ (ordinaryRead token step).accessTokenExpires := by
  rcases step with ⟨now, outcome⟩
  by_cases hlt : now < token.accessTokenExpires
  · simp [ordinaryRead, jwt, hlt]
  · cases outcome with
    | ok a e r =>
        simp only [ordinaryRead, jwt, if_neg hlt, refreshAccessToken]
        exact le_trans (Nat.le_of_not_lt hlt) (Nat.le_add_right now (e * 1000))
    | fail =>
        simp [ordinaryRead, jwt, hlt, refreshAccessToken]

/-- C8: across any sequence of ordinary reads — in particular across
successful refreshes, which only fire once `now` has reached the old expiry
and then set the new expiry to `now + expires_in * 1000` — the token's
`accessTokenExpires` never decreases. -/
theorem C8_expiry_monotone (token : SessionToken)
    (reads : List (Nat × RefreshOutcome)) :
    token.accessTokenExpires ≤
      (reads.foldl ordinaryRead token).accessTokenExpires := by
  induction reads generalizing token with
  | nil => exact le_refl _
  | cons step rest ih =>
      exact le_trans (ordinaryRead_expires_mono token step) (ih _)

/-- C1: a click of the Send button while the in-flight flag is true leaves
the state (conversation log included) unchanged and sends no request, because
the button is disabled while `check` holds. -/
theorem C1_inflight_click_noop (st : AppState) (token : Option String)
    (outcome : GenOutcome) (h : st.check = true) :
    sendButtonClick st token outcome = (st, []) := by
  simp [sendButtonClick, h]

theorem C1_inflight_click_noop_witness :
    (AppState.mk (some "topic") true []).check = true ∧
      sendButtonClick ⟨some "topic", true, []⟩ (some "tok") GenOutcome.exn =
        (⟨some "topic", true, []⟩, []) :=
  ⟨rfl, C1_inflight_click_noop ⟨some "topic", true, []⟩ (some "tok")
    GenOutcome.exn rfl⟩

theorem data_successText (w : String) :
    (successText w).data = successPre.data ++ '(' :: (w.data ++ [')']) := by
  simp only [successText, String.data_append, List.append_assoc]
  rfl

theorem extractParen_append_of_no_open (l r : List Char) (h : '(' ∉ l) :
    extractParen (l ++ r) = extractParen r := by
  induction l with
  | nil => rfl
  | cons c cs ih =>
      have hc : ¬c = '(' := fun hh => h (hh ▸ List.mem_cons_self c cs)
      have hcs : '(' ∉ cs := fun hh => h (List.mem_cons_of_mem c hh)
      simp only [List.cons_append, extractParen, if_neg hc]
      exact ih hcs

theorem grabGroup_append (u rest : List Char) (h1 : ')' ∉ u)
    (h2 : '\n' ∉ u) : grabGroup (u ++ ')' :: rest) = some u := by
  induction u with
  | nil => simp [grabGroup]
  | cons c cs ih =>
      have hc1 : ¬c = ')' := fun hh => h1 (hh ▸ List.mem_cons_self c cs)
      have hc2 : ¬c = '\n' := fun hh => h2 (hh ▸ List.mem_cons_self c cs)
      have hcs1 : ')' ∉ cs := fun hh => h1 (List.mem_cons_of_mem c hh)
      have hcs2 : '\n' ∉ cs := fun hh => h2 (List.mem_cons_of_mem c hh)
      simp [grabGroup, hc1, hc2, ih hcs1 hcs2]

theorem extractParenS_successText (u : String) (h1 : ')' ∉ u.data)
    (h2 : '\n' ∉ u.data) : extractParenS (successText u) = some u := by
  unfold extractParenS
  rw [data_successText,
    extractParen_append_of_no_open _ _ (by decide)]
  simp [extractParen, grabGroup_append u.data [] h1 h2]

/-- C5 as stated is false: the extraction pattern `/\((.*?)\)/` is lazy, so
for a success url that itself contains a closing parenthesis the appended
message's link is not extractable as the original url.  Concrete input:
topic "Machine Learning", token "tok123", backend response
`{success: true, url: "https://slides.example/a)b"}` — the log does gain the
two messages, but extraction yields "https://slides.example/a". -/
theorem C5_counterexample :
    (handleSubmit ⟨some "Machine Learning", false, []⟩ (some "tok123")
          (GenOutcome.ok true (some "https://slides.example/a)b"))).1.messages =
        [⟨Sender.user, "Machine Learning"⟩,
          ⟨Sender.ai, successText "https://slides.example/a)b"⟩] ∧
      extractParenS (successText "https://slides.example/a)b") =
          some "https://slides.example/a" ∧
        extractParenS (successText "https://slides.example/a)b") ≠
          some "https://slides.example/a)b" := by
  decide

/-- C5 amended: for a submit of a topic that does not trim to empty, with a
truthy token, against a backend response `{success: true, url: u}` with `u`
non-empty, the log grows by exactly the user message (the submitted topic)
followed by the system-response message `successText u` (the fixed prefix
phrase with `u` in parenthesized form); and `u` is extractable from that
message via the parenthesized-link pattern provided `u` contains no closing
parenthesis and no newline. -/
theorem C5_success_appends_linked_message (st : AppState) (v : String)
    (token : Option String) (u : String) (h1 : st.input = some v)
    (h2 : trimEmpty v = false) (h3 : truthy token = true) (h4 : ¬u = "")
    (h5 : ')' ∉ u.data) (h6 : '\n' ∉ u.data) :
    (handleSubmit st token (GenOutcome.ok true (some u))).1.messages =
        st.messages ++ [⟨Sender.user, v⟩, ⟨Sender.ai, successText u⟩] ∧
      extractParenS (successText u) = some u := by
  refine ⟨?_, extractParenS_successText u h5 h6⟩
  have hu : truthy (some u) = true := by simp [truthy, h4]
  simp [handleSubmit, h1, h2, h3, hu]

theorem C5_success_appends_linked_message_witness :
    (AppState.mk (some "Machine Learning") false []).input =
        some "Machine Learning" ∧
      trimEmpty "Machine Learning" = false ∧
      truthy (some "tok123") = true ∧
      ¬"https://slides.example/abc" = "" ∧
      ')' ∉ "https://slides.example/abc".data ∧
      '\n' ∉ "https://slides.example/abc".data ∧
      ((handleSubmit ⟨some "Machine Learning", false, []⟩ (some "tok123")
            (GenOutcome.ok true
              (some "https://slides.example/abc"))).1.messages =
          [] ++ [⟨Sender.user, "Machine Learning"⟩,
            ⟨Sender.ai, successText "https://slides.example/abc"⟩] ∧
        extractParenS (successText "https://slides.example/abc") =
          some "https://slides.example/abc") :=
  ⟨rfl, by decide, by decide, by decide, by decide, by decide,
    C5_success_appends_linked_message ⟨some "Machine Learning", false, []⟩
      "Machine Learning" (some "tok123") "https://slides.example/abc" rfl
      (by decide) (by decide) (by decide) (by decide) (by decide)⟩

/-- C6: a submit whose topic trims to empty, or whose token is absent
(missing or empty), is a no-op: the state — in particular the conversation
log — is unchanged and no request is sent. -/
theorem C6_guard_noop (st : AppState) (token : Option String)
    (outcome : GenOutcome)
    (h : (∃ v, st.input = some v ∧ trimEmpty v = true) ∨
      truthy token = false) :
    handleSubmit st token outcome = (st, []) := by
  cases hin : st.input with
  | none => simp [handleSubmit, hin]
  | some v =>
      rcases h with ⟨w, hw, hte⟩ | htok
      · rw [hin] at hw
        cases hw
        simp [handleSubmit, hin, hte]
      · cases hte : trimEmpty v with
        | true => simp [handleSubmit, hin, hte]
        | false => simp [handleSubmit, hin, hte, htok]

theorem C6_guard_noop_witness :
    ((∃ v, (AppState.mk (some "   ") false []).input = some v ∧
          trimEmpty v = true) ∨ truthy (some "tok") = false) ∧
      handleSubmit ⟨some "   ", false, []⟩ (some "tok") GenOutcome.exn =
          (⟨some "   ", false, []⟩, []) ∧
        handleSubmit ⟨some "topic", false, []⟩ (some "") GenOutcome.exn =
          (⟨some "topic", false, []⟩, []) :=
  ⟨Or.inl ⟨"   ", rfl, by decide⟩,
    C6_guard_noop ⟨some "   ", false, []⟩ (some "tok") GenOutcome.exn
      (Or.inl ⟨"   ", rfl, by decide⟩),
    C6_guard_noop ⟨some "topic", false, []⟩ (some "") GenOutcome.exn
      (Or.inr (by decide))⟩

/-- C9: every submit that sends a request ends with the in-flight flag
false, whichever way the call settles, and when the call throws the log
gains the user message followed by the fixed try-again system-response
message — the `finally` clears the flag even on that path. -/
theorem C9_inflight_cleared (st : AppState) (token : Option String)
    (outcome : GenOutcome) (h : (handleSubmit st token outcome).2 ≠ []) :
    (handleSubmit st token outcome).1.check = false ∧
      (outcome = GenOutcome.exn →
        (handleSubmit st token outcome).1.messages =
          st.messages ++ [⟨Sender.user, st.input.getD ""⟩,
            ⟨Sender.ai, tryAgainText⟩]) := by
  cases hin : st.input with
  | none => exact absurd (by simp [handleSubmit, hin]) h
  | some v =>
      cases hte : trimEmpty v with
      | true => exact absurd (by simp [handleSubmit, hin, hte]) h
      | false =>
          cases htok : truthy token with
          | false => exact absurd (by simp [handleSubmit, hin, hte, htok]) h
          | true =>
              constructor
              · cases outcome with
                | ok s u =>
                    cases hsu : s && truthy u with
                    | true => simp [handleSubmit, hin, hte, htok, hsu]
                    | false => simp [handleSubmit, hin, hte, htok, hsu]
                | exn => simp [handleSubmit, hin, hte, htok]
              · intro ho
                subst ho
                simp [handleSubmit, hin, hte, htok]

theorem C9_inflight_cleared_witness :
    (handleSubmit ⟨some "X", false, []⟩ (some "tok123")
          GenOutcome.exn).2 ≠ [] ∧
      ((handleSubmit ⟨some "X", false, []⟩ (some "tok123")
            GenOutcome.exn).1.check = false ∧
        (GenOutcome.exn = GenOutcome.exn →
          (handleSubmit ⟨some "X", false, []⟩ (some "tok123")
              GenOutcome.exn).1.messages =
            [] ++ [⟨Sender.user, (some "X").getD ""⟩,
              ⟨Sender.ai, tryAgainText⟩])) :=
  ⟨by decide,
    C9_inflight_cleared ⟨some "X", false, []⟩ (some "tok123") GenOutcome.exn
      (by decide)⟩

theorem successText_ne_apology (w : String) : successText w ≠ apologyText := by
  intro h
  have hl : (successText w).data.length = apologyText.data.length := by
    rw [h]
  rw [data_successText] at hl
  have h1 : successPre.length = 60 := by decide
  have h2 : apologyText.length = 39 := by decide
  have h3 : successPre.data.length = successPre.length := rfl
  have h4 : apologyText.data.length = apologyText.length := rfl
  simp only [List.length_append, List.length_cons, List.length_nil, h3,
    h4] at hl
  omega

/-- C10: for a request-sending submit whose backend response parses, the
success message is appended only when both `data.success` and `data.url` are
truthy; whenever that conjunction fails — including `{success: true}` with a
missing or empty url — the fixed apology is appended instead, never a
success message with a dangling link. -/
theorem C10_url_required_for_success (st : AppState) (v : String)
    (token : Option String) (s : Bool) (u : Option String)
    (h1 : st.input = some v) (h2 : trimEmpty v = false)
    (h3 : truthy token = true) :
    ((s && truthy u) = false →
        (handleSubmit st token (GenOutcome.ok s u)).1.messages =
          st.messages ++ [⟨Sender.user, v⟩, ⟨Sender.ai, apologyText⟩]) ∧
      ((handleSubmit st token (GenOutcome.ok s u)).1.messages =
          st.messages ++ [⟨Sender.user, v⟩,
            ⟨Sender.ai, successText (u.getD "")⟩] →
        s = true ∧ truthy u = true) := by
  constructor
  · intro hsu
    simp [handleSubmit, h1, h2, h3, hsu]
  · intro hmsg
    cases hsu : s && truthy u with
    | true => exact Bool.and_eq_true s (truthy u) |>.mp hsu
    | false =>
        exfalso
        have hap : (handleSubmit st token (GenOutcome.ok s u)).1.messages =
            st.messages ++ [⟨Sender.user, v⟩, ⟨Sender.ai, apologyText⟩] := by
          simp [handleSubmit, h1, h2, h3, hsu]
        rw [hmsg] at hap
        have htail := List.append_cancel_left hap
        simp [successText_ne_apology] at htail

theorem C10_url_required_for_success_witness :
    (AppState.mk (some "topic") false []).input = some "topic" ∧
      trimEmpty "topic" = false ∧
      truthy (some "tok") = true ∧
      ((true && truthy (some "")) = false →
        (handleSubmit ⟨some "topic", false, []⟩ (some "tok")
            (GenOutcome.ok true (some ""))).1.messages =
          [] ++ [⟨Sender.user, "topic"⟩, ⟨Sender.ai, apologyText⟩]) :=
  ⟨rfl, by decide, by decide,
    (C10_url_required_for_success ⟨some "topic", false, []⟩ "topic"
      (some "tok") true (some "") rfl (by decide) (by decide)).1⟩
